import Mathlib

/-!
Shallow embedding of `src/metrics/metrics_factory.py`.

The module implements a factory/strategy pair: `MetricCreator` subclasses
(`AwsCreator`, `StatsDCreator`) build concrete metric clients
(`AwsMetricClient`, `StatsDMetricClient`); each client lazily memoizes a
backend connection handle (`boto3.client('cloudwatch')` / `StatsClient()`)
in its `_client` attribute and sends exactly one encoded event per
`send_collector_metric` call.

Modelling choices:
- Side effects are an explicit trace (`List Effect`) recording every
  backend-constructor invocation and every outbound backend call.
- `datetime.now()` is an abstract clock reading supplied by an `Env`.
- Handle construction may fail; per the error taxonomy this surfaces as a
  `ConnectionError`, so effectful operations return
  `List Effect × Except ConnectionError _`.
- A connection handle is identified by an abstract `Nat`, so handle
  identity (memoization) is observable.
-/

/-- Abstract wall-clock value, mirroring a Python `datetime` down to the
microsecond as used by `datetime.now()` in the source. -/
structure Datetime where
  year : Nat
  month : Nat
  day : Nat
  hour : Nat
  minute : Nat
  second : Nat
  microsecond : Nat
deriving DecidableEq, Repr

/-- Abstract identity of a backend connection handle. -/
abbrev Handle := Nat

/-- Failure raised when a backend client/connection cannot be constructed. -/
structure ConnectionError where
  msg : String
deriving DecidableEq, Repr

/-- One CloudWatch dimension, as in the `Dimensions` list of the payload. -/
structure Dimension where
  Name : String
  Value : String
deriving DecidableEq, Repr

/-- One CloudWatch metric-data record, as built by
`AwsMetricClient.send_collector_metric`. -/
structure MetricDatum where
  MetricName : String
  Dimensions : List Dimension
  Timestamp : Datetime
  Value : Nat
  Unit : String
deriving DecidableEq, Repr

/-- The full payload of one `put_metric_data` call. -/
structure PutMetricDataCall where
  Namespace : String
  MetricData : List MetricDatum
deriving DecidableEq, Repr

/-- Observable effects of the module: backend-constructor invocations and
outbound backend calls. -/
inductive Effect where
  | constructAws : Effect
  | constructStatsD : Effect
  | putMetricData : PutMetricDataCall → Effect
  | incr : String → Effect
deriving DecidableEq, Repr

/-- Whether an effect is an outbound send to a backend (as opposed to a
constructor invocation). -/
def Effect.isSendCall : Effect → Bool
  | .putMetricData _ => true
  | .incr _ => true
  | _ => false

/-- Whether an effect is a backend-constructor invocation. -/
def Effect.isConstruct : Effect → Bool
  | .constructAws => true
  | .constructStatsD => true
  | _ => false

/-- The execution environment: the current clock reading and the outcome
of each backend constructor (`boto3.client('cloudwatch')`, `StatsClient()`). -/
structure Env where
  now : Datetime
  boto3Construct : Except ConnectionError Handle
  statsClientConstruct : Except ConnectionError Handle

/-- State of an `AwsMetricClient` instance: the lazily-set `_client`
attribute (absent until first access of the `client` property). -/
structure AwsMetricClient where
  _client : Option Handle
deriving DecidableEq, Repr

/-- State of a `StatsDMetricClient` instance: the lazily-set `_client`
attribute. -/
structure StatsDMetricClient where
  _client : Option Handle
deriving DecidableEq, Repr

/-- The `client` property of `AwsMetricClient`: return the memoized
`_client` if set, else invoke `boto3.client('cloudwatch')`, store and
return the result; a construction failure propagates. -/
def AwsMetricClient.client (env : Env) (s : AwsMetricClient) :
    List Effect × Except ConnectionError (Handle × AwsMetricClient) :=
  match s._client with
  | some h => ([], .ok (h, s))
  | none =>
    match env.boto3Construct with
    | .ok h => ([.constructAws], .ok (h, { _client := some h }))
    | .error e => ([.constructAws], .error e)

/-- The `client` property of `StatsDMetricClient`: return the memoized
`_client` if set, else invoke `StatsClient()`, store and return the
result; a construction failure propagates. -/
def StatsDMetricClient.client (env : Env) (s : StatsDMetricClient) :
    List Effect × Except ConnectionError (Handle × StatsDMetricClient) :=
  match s._client with
  | some h => ([], .ok (h, s))
  | none =>
    match env.statsClientConstruct with
    | .ok h => ([.constructStatsD], .ok (h, { _client := some h }))
    | .error e => ([.constructStatsD], .error e)

/-- The exact `put_metric_data` payload built by
`AwsMetricClient.send_collector_metric`, transcribed field by field from
the source (`now` stands for the `datetime.now()` reading). -/
def awsMetricPayload (now : Datetime) (collector_name env_name : String) :
    PutMetricDataCall :=
  { Namespace := "Collector-Metrics",
    MetricData := [
      { MetricName := "collector_crawl",
        Dimensions := [
          { Name := "collector_name", Value := collector_name },
          { Name := "environment", Value := env_name }],
        Timestamp := now,
        Value := 1,
        Unit := "Count" }] }

/-- `AwsMetricClient.send_collector_metric`: obtain the handle through the
`client` property, then perform exactly one `put_metric_data` call with
namespace `Collector-Metrics` and a single metric-data record whose fields
mirror the source literally (metric name `collector_crawl`, dimensions
`collector_name`/`environment`, `Timestamp` = `datetime.now()`, value 1,
unit `Count`). -/
def AwsMetricClient.send_collector_metric (env : Env) (s : AwsMetricClient)
    (collector_name : String) (env_name : String := "dev") :
    List Effect × Except ConnectionError AwsMetricClient :=
  match AwsMetricClient.client env s with
  | (t, .error e) => (t, .error e)
  | (t, .ok (_, s')) =>
    (t ++ [.putMetricData (awsMetricPayload env.now collector_name env_name)],
      .ok s')

/-- `StatsDMetricClient.send_collector_metric`: obtain the handle through
the `client` property, then perform exactly one counter increment with key
`"collector_crawl." ++ collector_name`; `env_name` is accepted but unused,
as in the source. -/
def StatsDMetricClient.send_collector_metric (env : Env)
    (s : StatsDMetricClient) (collector_name : String)
    (env_name : String := "dev") :
    List Effect × Except ConnectionError StatsDMetricClient :=
  match StatsDMetricClient.client env s with
  | (t, .error e) => (t, .error e)
  | (t, .ok (_, s')) =>
    (t ++ [.incr ("collector_crawl." ++ collector_name)], .ok s')

/-- A metric client object, polymorphic over the two concrete variants. -/
inductive MetricClientObj where
  | aws : AwsMetricClient → MetricClientObj
  | statsd : StatsDMetricClient → MetricClientObj
deriving DecidableEq, Repr

/-- Polymorphic dispatch of `send_collector_metric` over the client
variants. -/
def MetricClientObj.send_collector_metric (env : Env) (o : MetricClientObj)
    (collector_name : String) (env_name : String := "dev") :
    List Effect × Except ConnectionError MetricClientObj :=
  match o with
  | .aws c =>
    match AwsMetricClient.send_collector_metric env c collector_name env_name with
    | (t, .ok c') => (t, .ok (.aws c'))
    | (t, .error e) => (t, .error e)
  | .statsd c =>
    match StatsDMetricClient.send_collector_metric env c collector_name env_name with
    | (t, .ok c') => (t, .ok (.statsd c'))
    | (t, .error e) => (t, .error e)

/-- The two concrete `MetricCreator` subclasses. -/
inductive MetricCreator where
  | awsCreator : MetricCreator
  | statsdCreator : MetricCreator
deriving DecidableEq, Repr

/-- `factory_client`: each creator returns a newly constructed client of
its own variant (`AwsMetricClient()` / `StatsDMetricClient()`), with no
`_client` attribute set yet. Pure: no trace, no failure. -/
def MetricCreator.factory_client : MetricCreator → MetricClientObj
  | .awsCreator => .aws { _client := none }
  | .statsdCreator => .statsd { _client := none }

/-- `MetricCreator.send_collector_crawl_metric`: build a client via
`factory_client`, then delegate emission to it with the same arguments. -/
def MetricCreator.send_collector_crawl_metric (cr : MetricCreator) (env : Env)
    (collector_name : String) (env_name : String := "dev") :
    List Effect × Except ConnectionError MetricClientObj :=
  MetricClientObj.send_collector_metric env cr.factory_client
    collector_name env_name

/-- The clock value fixed by the repository's scenario test:
`2022-03-15T18:28:42.809605`. -/
def scenarioNow : Datetime :=
  { year := 2022, month := 3, day := 15, hour := 18, minute := 28,
    second := 42, microsecond := 809605 }

/-- A concrete environment in which both backend constructors succeed. -/
def envOk : Env :=
  { now := scenarioNow, boto3Construct := .ok 0,
    statsClientConstruct := .ok 0 }

/-- A concrete environment in which both backend constructors fail. -/
def envBad : Env :=
  { now := scenarioNow,
    boto3Construct := .error { msg := "no credentials" },
    statsClientConstruct := .error { msg := "no daemon" } }

/-- A second successful environment with the same clock reading as `envOk`
but distinct connection handles. -/
def envOk2 : Env :=
  { now := scenarioNow, boto3Construct := .ok 7,
    statsClientConstruct := .ok 7 }

/-- The trace of a `client` property access on the aws client contains no
outbound send: at most a constructor invocation. -/
theorem aws_client_trace_no_send (env : Env)
    (s : AwsMetricClient) :
    (AwsMetricClient.client env s).fst.filter Effect.isSendCall = [] := by
  unfold AwsMetricClient.client
  cases s._client with
  | some h => simp
  | none =>
    cases env.boto3Construct with
    | ok h => simp [Effect.isSendCall]
    | error e => simp [Effect.isSendCall]

/-- The trace of a `client` property access on the statsd client contains
no outbound send: at most a constructor invocation. -/
theorem statsd_client_trace_no_send (env : Env)
    (s : StatsDMetricClient) :
    (StatsDMetricClient.client env s).fst.filter Effect.isSendCall = [] := by
  unfold StatsDMetricClient.client
  cases s._client with
  | some h => simp
  | none =>
    cases env.statsClientConstruct with
    | ok h => simp [Effect.isSendCall]
    | error e => simp [Effect.isSendCall]

/-- A successful `client` access on the aws client leaves the handle
memoized in the state and invokes the constructor at most once. -/
theorem aws_client_ok_state (env : Env) (s : AwsMetricClient)
    (t : List Effect) (h : Handle) (s' : AwsMetricClient)
    (hcl : AwsMetricClient.client env s = (t, .ok (h, s'))) :
    s'._client = some h ∧ (t.filter Effect.isConstruct).length ≤ 1 := by
  unfold AwsMetricClient.client at hcl
  cases hs : s._client with
  | some h0 =>
    rw [hs] at hcl
    simp only [Prod.mk.injEq, Except.ok.injEq] at hcl
    obtain ⟨ht, hh, hst⟩ := hcl
    subst ht hh hst
    simp [hs]
  | none =>
    rw [hs] at hcl
    cases he : env.boto3Construct with
    | ok h0 =>
      rw [he] at hcl
      simp only [Prod.mk.injEq, Except.ok.injEq] at hcl
      obtain ⟨ht, hh, hst⟩ := hcl
      subst ht hh hst
      simp [Effect.isConstruct]
    | error e =>
      rw [he] at hcl
      simp at hcl

/-- Accessing `client` on an aws client whose handle is already memoized
returns it unchanged with an empty trace. -/
theorem aws_client_memo (env : Env) (s : AwsMetricClient)
    (h : Handle) (hs : s._client = some h) :
    AwsMetricClient.client env s = ([], .ok (h, s)) := by
  unfold AwsMetricClient.client
  rw [hs]

/-- A successful `client` access on the statsd client leaves the handle
memoized in the state and invokes the constructor at most once. -/
theorem statsd_client_ok_state (env : Env)
    (s : StatsDMetricClient) (t : List Effect) (h : Handle)
    (s' : StatsDMetricClient)
    (hcl : StatsDMetricClient.client env s = (t, .ok (h, s'))) :
    s'._client = some h ∧ (t.filter Effect.isConstruct).length ≤ 1 := by
  unfold StatsDMetricClient.client at hcl
  cases hs : s._client with
  | some h0 =>
    rw [hs] at hcl
    simp only [Prod.mk.injEq, Except.ok.injEq] at hcl
    obtain ⟨ht, hh, hst⟩ := hcl
    subst ht hh hst
    simp [hs]
  | none =>
    rw [hs] at hcl
    cases he : env.statsClientConstruct with
    | ok h0 =>
      rw [he] at hcl
      simp only [Prod.mk.injEq, Except.ok.injEq] at hcl
      obtain ⟨ht, hh, hst⟩ := hcl
      subst ht hh hst
      simp [Effect.isConstruct]
    | error e =>
      rw [he] at hcl
      simp at hcl

/-- Accessing `client` on a statsd client whose handle is already memoized
returns it unchanged with an empty trace. -/
theorem statsd_client_memo (env : Env) (s : StatsDMetricClient)
    (h : Handle) (hs : s._client = some h) :
    StatsDMetricClient.client env s = ([], .ok (h, s)) := by
  unfold StatsDMetricClient.client
  rw [hs]

/-- C1: for every pair (collector_id, environment_label), the cloud
variant's emission performs exactly one `put_metric_data` call whose
payload has namespace `Collector-Metrics`, metric name `collector_crawl`,
exactly the two dimensions `collector_name` = collector_id and
`environment` = environment_label in that order, value 1, unit `Count`,
and a timestamp equal to the clock reading at call time (stated under the
hypothesis that the connection handle is obtained, i.e. the `client`
property succeeds). -/
theorem C1_aws_send_exactly_one_exact_put (env : Env) (s : AwsMetricClient)
    (collector_name env_name : String) (t : List Effect) (h : Handle)
    (s' : AwsMetricClient)
    (hcl : AwsMetricClient.client env s = (t, .ok (h, s'))) :
    (AwsMetricClient.send_collector_metric env s collector_name
        env_name).fst.filter Effect.isSendCall =
      [Effect.putMetricData
        { Namespace := "Collector-Metrics",
          MetricData := [
            { MetricName := "collector_crawl",
              Dimensions := [
                { Name := "collector_name", Value := collector_name },
                { Name := "environment", Value := env_name }],
              Timestamp := env.now,
              Value := 1,
              Unit := "Count" }] }] := by
  have hns : t.filter Effect.isSendCall = [] := by
    have hx := aws_client_trace_no_send env s
    rw [hcl] at hx
    exact hx
  unfold AwsMetricClient.send_collector_metric
  rw [hcl]
  simp [List.filter_append, hns, Effect.isSendCall, awsMetricPayload]

/-- C1 witness: the repository's scenario test — collector `gitlab_crawl`,
default environment `dev`, clock fixed at `2022-03-15T18:28:42.809605`. -/
theorem C1_witness :
    (AwsMetricClient.send_collector_metric envOk { _client := none }
        "gitlab_crawl" "dev").fst.filter Effect.isSendCall =
      [Effect.putMetricData
        { Namespace := "Collector-Metrics",
          MetricData := [
            { MetricName := "collector_crawl",
              Dimensions := [
                { Name := "collector_name", Value := "gitlab_crawl" },
                { Name := "environment", Value := "dev" }],
              Timestamp := scenarioNow,
              Value := 1,
              Unit := "Count" }] }] :=
  C1_aws_send_exactly_one_exact_put envOk { _client := none } "gitlab_crawl"
    "dev" [.constructAws] 0 { _client := some 0 } (by rfl)

/-- C2: for every collector_id and environment_label, the stats-daemon
variant's emission performs exactly one counter-increment call whose key
is exactly `"collector_crawl." ++ collector_id` (under the hypothesis that
the handle is obtained), and the environment_label argument has no effect
whatsoever on the call. -/
theorem C2_statsd_send_exact_key_env_independent (env : Env)
    (s : StatsDMetricClient) (collector_name env_name : String)
    (t : List Effect) (h : Handle) (s' : StatsDMetricClient)
    (hcl : StatsDMetricClient.client env s = (t, .ok (h, s'))) :
    (StatsDMetricClient.send_collector_metric env s collector_name
        env_name).fst.filter Effect.isSendCall =
      [Effect.incr ("collector_crawl." ++ collector_name)]
    ∧ ∀ en : String,
        StatsDMetricClient.send_collector_metric env s collector_name en =
          StatsDMetricClient.send_collector_metric env s collector_name
            env_name := by
  constructor
  · have hns : t.filter Effect.isSendCall = [] := by
      have hx := statsd_client_trace_no_send env s
      rw [hcl] at hx
      exact hx
    unfold StatsDMetricClient.send_collector_metric
    rw [hcl]
    simp [List.filter_append, hns, Effect.isSendCall]
  · intro en
    rfl

/-- C2 witness: the scenario test — collector `gitlab_crawl` yields exactly
one increment with key `collector_crawl.gitlab_crawl`. -/
theorem C2_witness :
    (StatsDMetricClient.send_collector_metric envOk { _client := none }
        "gitlab_crawl" "dev").fst.filter Effect.isSendCall =
      [Effect.incr ("collector_crawl." ++ "gitlab_crawl")]
    ∧ ∀ en : String,
        StatsDMetricClient.send_collector_metric envOk { _client := none }
            "gitlab_crawl" en =
          StatsDMetricClient.send_collector_metric envOk { _client := none }
            "gitlab_crawl" "dev" :=
  C2_statsd_send_exact_key_env_independent envOk { _client := none }
    "gitlab_crawl" "dev" [.constructStatsD] 0 { _client := some 0 } (by rfl)

/-- C3: for every supported backend choice, `factory_client` returns a
newly constructed client of the matching variant (aws creator yields an
`AwsMetricClient` with no handle set, statsd creator a fresh
`StatsDMetricClient`); as a Lean function into `MetricClientObj` it is
total and pure — no trace, no `Except`, hence no side effect and no
failure. -/
theorem C3_factory_client_matches_variant :
    MetricCreator.factory_client .awsCreator =
        .aws { _client := none }
    ∧ MetricCreator.factory_client .statsdCreator =
        .statsd { _client := none } :=
  ⟨rfl, rfl⟩

/-- C4: on either client variant, once a `client` property access has
succeeded, a second access on the same instance returns the identical
handle with an empty trace (the underlying constructor is not invoked
again), and the first access invoked the constructor at most once — so
the constructor runs at most once across any sequence of accesses. -/
theorem C4_client_property_memoized (env : Env) :
    (∀ (s : AwsMetricClient) (t : List Effect) (h : Handle)
        (s' : AwsMetricClient),
        AwsMetricClient.client env s = (t, .ok (h, s')) →
          AwsMetricClient.client env s' = ([], .ok (h, s'))
          ∧ (t.filter Effect.isConstruct).length ≤ 1)
    ∧ (∀ (s : StatsDMetricClient) (t : List Effect) (h : Handle)
        (s' : StatsDMetricClient),
        StatsDMetricClient.client env s = (t, .ok (h, s')) →
          StatsDMetricClient.client env s' = ([], .ok (h, s'))
          ∧ (t.filter Effect.isConstruct).length ≤ 1) := by
  constructor
  · intro s t h s' hcl
    obtain ⟨hmem, hcnt⟩ := aws_client_ok_state env s t h s' hcl
    exact ⟨aws_client_memo env s' h hmem, hcnt⟩
  · intro s t h s' hcl
    obtain ⟨hmem, hcnt⟩ :=
      statsd_client_ok_state env s t h s' hcl
    exact ⟨statsd_client_memo env s' h hmem, hcnt⟩

/-- C4 witness: after a first successful access on a fresh aws client, the
second access returns the same handle with no constructor invocation. -/
theorem C4_witness :
    AwsMetricClient.client envOk { _client := some 0 } =
        ([], .ok (0, { _client := some 0 }))
    ∧ ([Effect.constructAws].filter Effect.isConstruct).length ≤ 1 :=
  (C4_client_property_memoized envOk).1 { _client := none }
    [.constructAws] 0 { _client := some 0 } (by rfl)

/-- C5: for every creator variant and every argument pair, the convenience
operation `send_collector_crawl_metric` is observationally identical to
calling `factory_client` and then invoking the returned client's
`send_collector_metric` with the same arguments: same trace, same
result. -/
theorem C5_convenience_equals_build_then_send (cr : MetricCreator)
    (env : Env) (collector_name env_name : String) :
    cr.send_collector_crawl_metric env collector_name env_name =
      MetricClientObj.send_collector_metric env cr.factory_client
        collector_name env_name := rfl

/-- C6: if construction of the backend handle fails on the first access,
the failure propagates to the caller as a `ConnectionError` unmodified and
no send reaches the backend: the emission's result is exactly that error
and its trace contains no outbound send, with no retry (the constructor
effect appears once). -/
theorem C6_construction_failure_propagates (env : Env) (e : ConnectionError)
    (collector_name env_name : String)
    (hfail : env.boto3Construct = .error e) :
    (AwsMetricClient.send_collector_metric env { _client := none }
        collector_name env_name).snd = .error e
    ∧ (AwsMetricClient.send_collector_metric env { _client := none }
        collector_name env_name).fst.filter Effect.isSendCall = []
    ∧ (AwsMetricClient.send_collector_metric env { _client := none }
        collector_name env_name).fst.filter Effect.isConstruct =
        [.constructAws] := by
  refine ⟨?_, ?_, ?_⟩ <;>
    simp [AwsMetricClient.send_collector_metric, AwsMetricClient.client,
      hfail, Effect.isSendCall, Effect.isConstruct]

/-- C6 witness: in an environment where `boto3.client` fails, a fresh aws
client's emission surfaces the error with no send and a single
construction attempt. -/
theorem C6_witness :
    (AwsMetricClient.send_collector_metric envBad { _client := none }
        "gitlab_crawl" "dev").snd = .error { msg := "no credentials" }
    ∧ (AwsMetricClient.send_collector_metric envBad { _client := none }
        "gitlab_crawl" "dev").fst.filter Effect.isSendCall = []
    ∧ (AwsMetricClient.send_collector_metric envBad { _client := none }
        "gitlab_crawl" "dev").fst.filter Effect.isConstruct =
        [.constructAws] :=
  C6_construction_failure_propagates envBad { msg := "no credentials" }
    "gitlab_crawl" "dev" (by rfl)

/-- An aws emission never places more than one outbound send in its
trace, whatever the state and environment. -/
theorem aws_send_at_most_one (env : Env) (s : AwsMetricClient)
    (cn en : String) :
    ((AwsMetricClient.send_collector_metric env s cn
        en).fst.filter Effect.isSendCall).length ≤ 1 := by
  unfold AwsMetricClient.send_collector_metric
  cases hcl : AwsMetricClient.client env s with
  | mk t0 r =>
    have hns : t0.filter Effect.isSendCall = [] := by
      have hx := aws_client_trace_no_send env s
      rw [hcl] at hx
      exact hx
    cases r with
    | error e => simp [hns]
    | ok p =>
      cases p with
      | mk h s' => simp [List.filter_append, hns, Effect.isSendCall]

/-- A statsd emission never places more than one outbound send in its
trace, whatever the state and environment. -/
theorem statsd_send_at_most_one (env : Env)
    (s : StatsDMetricClient) (cn en : String) :
    ((StatsDMetricClient.send_collector_metric env s cn
        en).fst.filter Effect.isSendCall).length ≤ 1 := by
  unfold StatsDMetricClient.send_collector_metric
  cases hcl : StatsDMetricClient.client env s with
  | mk t0 r =>
    have hns : t0.filter Effect.isSendCall = [] := by
      have hx := statsd_client_trace_no_send env s
      rw [hcl] at hx
      exact hx
    cases r with
    | error e => simp [hns]
    | ok p =>
      cases p with
      | mk h s' => simp [List.filter_append, hns, Effect.isSendCall]

/-- C7: for every client variant, state and arguments, one emission call
performs at most one outbound backend call — never two or more, no
batching, no deduplication across the trace of a single call. -/
theorem C7_at_most_one_send_per_emission (env : Env) (o : MetricClientObj)
    (collector_name env_name : String) :
    ((MetricClientObj.send_collector_metric env o collector_name
        env_name).fst.filter Effect.isSendCall).length ≤ 1 := by
  cases o with
  | aws c =>
    have hle := aws_send_at_most_one env c collector_name
      env_name
    cases hs : AwsMetricClient.send_collector_metric env c collector_name
        env_name with
    | mk t r =>
      rw [hs] at hle
      cases r <;>
        · simp only [MetricClientObj.send_collector_metric, hs]
          simpa using hle
  | statsd c =>
    have hle := statsd_send_at_most_one env c collector_name
      env_name
    cases hs : StatsDMetricClient.send_collector_metric env c collector_name
        env_name with
    | mk t r =>
      rw [hs] at hle
      cases r <;>
        · simp only [MetricClientObj.send_collector_metric, hs]
          simpa using hle

/-- C8: every emission operation — both clients' `send_collector_metric`
and the creator's `send_collector_crawl_metric` — called without an
environment label behaves exactly as if the caller had passed the literal
string `dev`. -/
theorem C8_default_env_label_is_dev (env : Env) (a : AwsMetricClient)
    (d : StatsDMetricClient) (cr : MetricCreator)
    (collector_name : String) :
    AwsMetricClient.send_collector_metric env a collector_name =
        AwsMetricClient.send_collector_metric env a collector_name "dev"
    ∧ StatsDMetricClient.send_collector_metric env d collector_name =
        StatsDMetricClient.send_collector_metric env d collector_name "dev"
    ∧ cr.send_collector_crawl_metric env collector_name =
        cr.send_collector_crawl_metric env collector_name "dev" :=
  ⟨rfl, rfl, rfl⟩

/-- C9: every convenience call builds a brand-new client (`factory_client`
always returns an instance with no memoized handle), so each
`send_collector_crawl_metric` call invokes the backend constructor exactly
once — the memoized handle is never reused across two convenience
calls. -/
theorem C9_fresh_client_per_convenience_call (cr : MetricCreator)
    (env : Env) (collector_name env_name : String) :
    (cr.factory_client = .aws { _client := none }
      ∨ cr.factory_client = .statsd { _client := none })
    ∧ ((cr.send_collector_crawl_metric env collector_name
          env_name).fst.filter Effect.isConstruct).length = 1 := by
  constructor
  · cases cr
    · exact .inl rfl
    · exact .inr rfl
  · cases cr with
    | awsCreator =>
      cases he : env.boto3Construct with
      | ok h =>
        simp [MetricCreator.send_collector_crawl_metric,
          MetricCreator.factory_client,
          MetricClientObj.send_collector_metric,
          AwsMetricClient.send_collector_metric, AwsMetricClient.client,
          he, Effect.isConstruct]
      | error e =>
        simp [MetricCreator.send_collector_crawl_metric,
          MetricCreator.factory_client,
          MetricClientObj.send_collector_metric,
          AwsMetricClient.send_collector_metric, AwsMetricClient.client,
          he, Effect.isConstruct]
    | statsdCreator =>
      cases he : env.statsClientConstruct with
      | ok h =>
        simp [MetricCreator.send_collector_crawl_metric,
          MetricCreator.factory_client,
          MetricClientObj.send_collector_metric,
          StatsDMetricClient.send_collector_metric,
          StatsDMetricClient.client, he, Effect.isConstruct]
      | error e =>
        simp [MetricCreator.send_collector_crawl_metric,
          MetricCreator.factory_client,
          MetricClientObj.send_collector_metric,
          StatsDMetricClient.send_collector_metric,
          StatsDMetricClient.client, he, Effect.isConstruct]

/-- A successful aws emission's outbound sends are exactly one
`put_metric_data` with the payload determined by the clock reading and the
two arguments — nothing else influences it. -/
theorem aws_send_ok_sends (env : Env) (s : AwsMetricClient)
    (cn en : String) (t : List Effect) (c : AwsMetricClient)
    (hsend : AwsMetricClient.send_collector_metric env s cn en =
      (t, .ok c)) :
    t.filter Effect.isSendCall =
      [.putMetricData (awsMetricPayload env.now cn en)] := by
  unfold AwsMetricClient.send_collector_metric at hsend
  cases hcl : AwsMetricClient.client env s with
  | mk t0 r =>
    have hns : t0.filter Effect.isSendCall = [] := by
      have hx := aws_client_trace_no_send env s
      rw [hcl] at hx
      exact hx
    rw [hcl] at hsend
    cases r with
    | error e => simp at hsend
    | ok p =>
      cases p with
      | mk h s' =>
        simp only [Prod.mk.injEq, Except.ok.injEq] at hsend
        obtain ⟨ht, hc⟩ := hsend
        subst ht
        simp [List.filter_append, hns, Effect.isSendCall]

/-- A successful statsd emission's outbound sends are exactly one counter
increment with the key determined by the collector name — nothing else
influences it. -/
theorem statsd_send_ok_sends (env : Env)
    (s : StatsDMetricClient) (cn en : String) (t : List Effect)
    (c : StatsDMetricClient)
    (hsend : StatsDMetricClient.send_collector_metric env s cn en =
      (t, .ok c)) :
    t.filter Effect.isSendCall = [.incr ("collector_crawl." ++ cn)] := by
  unfold StatsDMetricClient.send_collector_metric at hsend
  cases hcl : StatsDMetricClient.client env s with
  | mk t0 r =>
    have hns : t0.filter Effect.isSendCall = [] := by
      have hx := statsd_client_trace_no_send env s
      rw [hcl] at hx
      exact hx
    rw [hcl] at hsend
    cases r with
    | error e => simp at hsend
    | ok p =>
      cases p with
      | mk h s' =>
        simp only [Prod.mk.injEq, Except.ok.injEq] at hsend
        obtain ⟨ht, hc⟩ := hsend
        subst ht
        simp [List.filter_append, hns, Effect.isSendCall]

/-- C10: with the clock value fixed, emission is deterministic — two
successful runs of `send_collector_metric` on either variant with the same
(collector_name, env_name) and the same clock reading produce identical
outbound backend payloads, regardless of any other difference in
environment or instance state. -/
theorem C10_emission_deterministic_given_clock (e1 e2 : Env)
    (s1 s2 : AwsMetricClient) (d1 d2 : StatsDMetricClient)
    (collector_name env_name : String) (hnow : e1.now = e2.now) :
    (∀ (t1 t2 : List Effect) (c1 c2 : AwsMetricClient),
        AwsMetricClient.send_collector_metric e1 s1 collector_name
            env_name = (t1, .ok c1) →
        AwsMetricClient.send_collector_metric e2 s2 collector_name
            env_name = (t2, .ok c2) →
        t1.filter Effect.isSendCall = t2.filter Effect.isSendCall)
    ∧ (∀ (t1 t2 : List Effect) (c1 c2 : StatsDMetricClient),
        StatsDMetricClient.send_collector_metric e1 d1 collector_name
            env_name = (t1, .ok c1) →
        StatsDMetricClient.send_collector_metric e2 d2 collector_name
            env_name = (t2, .ok c2) →
        t1.filter Effect.isSendCall = t2.filter Effect.isSendCall) := by
  constructor
  · intro t1 t2 c1 c2 h1 h2
    rw [aws_send_ok_sends e1 s1 collector_name env_name t1 c1
        h1,
      aws_send_ok_sends e2 s2 collector_name env_name t2 c2 h2,
      hnow]
  · intro t1 t2 c1 c2 h1 h2
    rw [statsd_send_ok_sends e1 d1 collector_name env_name t1
        c1 h1,
      statsd_send_ok_sends e2 d2 collector_name env_name t2 c2
        h2]

/-- C10 witness: two environments sharing the clock reading but differing
in handles, one fresh client and one with a memoized handle, yield the
same outbound payload. -/
theorem C10_witness :
    ([Effect.constructAws,
        Effect.putMetricData
          (awsMetricPayload scenarioNow "gitlab_crawl" "dev")].filter
        Effect.isSendCall) =
      ([Effect.putMetricData
          (awsMetricPayload scenarioNow "gitlab_crawl" "dev")].filter
        Effect.isSendCall) :=
  (C10_emission_deterministic_given_clock envOk envOk2 { _client := none }
      { _client := some 5 } { _client := none } { _client := none }
      "gitlab_crawl" "dev" (by rfl)).1
    [Effect.constructAws,
      Effect.putMetricData (awsMetricPayload scenarioNow "gitlab_crawl" "dev")]
    [Effect.putMetricData (awsMetricPayload scenarioNow "gitlab_crawl" "dev")]
    { _client := some 0 } { _client := some 5 } (by rfl) (by rfl)
